import Mathlib

set_option maxRecDepth 100000

/-!
# Formal model of `riot-rank-bot`

A shallow embedding, in Lean 4, of the pure logic of the repository
`alongLFB/riot-rank-bot` (files `lol_rank_tracker.py` and `bot.py`),
together with theorems settling the specification claims.

Python strings are modelled as Lean `String`, Python `int` fields that the
remote service guarantees nonnegative (wins, losses, league points) as `Nat`,
the float `win_rate` as an exact rational `ℚ`, Python dicts of fixed shape as
structures, and the external effects (remote API calls, file system, clock)
as explicit parameters of the embedded functions.
-/

/- ## Python string primitives

`pyIsSpace` is the ASCII part of Python's `str.strip` whitespace class
(space, tab, newline, carriage return, vertical tab, form feed). -/
def pyIsSpace (c : Char) : Bool :=
  c = ' ' || c = '\t' || c = '\n' || c = '\r' || c = '\x0b' || c = '\x0c'

/-- `str.strip()` on a character list: drop whitespace from both ends. -/
def pyStripL (l : List Char) : List Char :=
  ((l.dropWhile pyIsSpace).reverse.dropWhile pyIsSpace).reverse

/-- Python `line.strip()`. -/
def pyStrip (s : String) : String := ⟨pyStripL s.data⟩

/-- `needle` occurs at the head of `hay`. -/
def subAt : List Char → List Char → Bool
  | [], _ => true
  | _ :: _, [] => false
  | a :: as, b :: bs => a = b && subAt as bs

/-- `needle` occurs somewhere in `hay` (Python `needle in hay` on lists). -/
def containsSubL : List Char → List Char → Bool
  | n, [] => subAt n []
  | n, c :: t => subAt n (c :: t) || containsSubL n t

/-- Python substring test `sub in s`. -/
def pyIn (sub s : String) : Bool := containsSubL sub.data s.data

/-- Python `s.lower()` (ASCII; the strings classified by this program are ASCII). -/
def pyLower (s : String) : String := ⟨s.data.map Char.toLower⟩

/-- Python `s.startswith(pre)`. -/
def pyStartsWith (s pre : String) : Bool := subAt pre.data s.data

/-- Python `s.split(sep)` with an explicit one-character separator: splits at
every occurrence of `sep`, keeping empty fields; the result is never empty. -/
def pySplit (sep : Char) : List Char → List (List Char)
  | [] => [[]]
  | c :: cs =>
    if c = sep then [] :: pySplit sep cs
    else
      match pySplit sep cs with
      | [] => [[c]]
      | h :: t => (c :: h) :: t

/- ## `lol_rank_tracker.parse_riot_id` -/

/-- `lol_rank_tracker.py` lines 35-45:
strip the line; empty → `(None, None)`; if `'#' in line` then
`parts = line.split('#')` and return `(parts[0].strip(), parts[1].strip())`;
otherwise `(None, None)`.  The out-of-range accesses `parts[0]`/`parts[1]`
are totalised with an empty default, which is never reached because a line
containing `'#'` splits into at least two fields. -/
def parse_riot_id (line : String) : Option String × Option String :=
  let line := pyStrip line
  if line = "" then (none, none)
  else if '#' ∈ line.data then
    let parts := pySplit '#' line.data
    (some (pyStrip ⟨parts.getD 0 []⟩), some (pyStrip ⟨parts.getD 1 []⟩))
  else (none, none)

/- ## Helper lemmas on the string primitives -/

theorem pySplit_ne_nil (sep : Char) (l : List Char) : pySplit sep l ≠ [] := by
  cases l with
  | nil => simp [pySplit]
  | cons c cs =>
    simp only [pySplit]
    split
    · simp
    · split
      · simp
      · simp

theorem pySplit_head (sep : Char) (l : List Char) :
    (pySplit sep l).getD 0 [] = l.takeWhile (· ≠ sep) := by
  induction l with
  | nil => simp [pySplit]
  | cons c cs ih =>
    by_cases hc : c = sep
    · subst hc
      have e1 : pySplit c (c :: cs) = [] :: pySplit c cs := by
        simp [pySplit]
      rw [e1]
      simp [List.takeWhile_cons]
    · rcases hsp : pySplit sep cs with _ | ⟨h, t⟩
      · exact absurd hsp (pySplit_ne_nil sep cs)
      · have e1 : pySplit sep (c :: cs) = (c :: h) :: t := by
          simp [pySplit, hc, hsp]
        have ih' : h = cs.takeWhile (· ≠ sep) := by
          rw [hsp] at ih
          simpa using ih
        rw [e1]
        simp [List.takeWhile_cons, hc, ih']

theorem pySplit_second (sep : Char) (l : List Char) (hmem : sep ∈ l) :
    (pySplit sep l).getD 1 [] =
      ((l.dropWhile (· ≠ sep)).tail).takeWhile (· ≠ sep) := by
  induction l with
  | nil => cases hmem
  | cons c cs ih =>
    by_cases hc : c = sep
    · subst hc
      have e1 : pySplit c (c :: cs) = [] :: pySplit c cs := by
        simp [pySplit]
      have e2 : List.dropWhile (fun x => decide (x ≠ c)) (c :: cs) = c :: cs := by
        simp [List.dropWhile_cons]
      rw [e1, e2]
      exact pySplit_head c cs
    · have hmem' : sep ∈ cs := by
        cases hmem with
        | head => exact absurd rfl hc
        | tail _ h => exact h
      rcases hsp : pySplit sep cs with _ | ⟨h, t⟩
      · exact absurd hsp (pySplit_ne_nil sep cs)
      · have e1 : pySplit sep (c :: cs) = (c :: h) :: t := by
          simp [pySplit, hc, hsp]
        have e2 : List.dropWhile (fun x => decide (x ≠ sep)) (c :: cs) =
            List.dropWhile (fun x => decide (x ≠ sep)) cs := by
          simp [List.dropWhile_cons, hc]
        have ih' := ih hmem'
        rw [hsp] at ih'
        rw [e1, e2]
        exact ih'

/- ## Claim C3 -/

/-- C3 counterexample: the claim asserts `parse("a#b#c") = ("a", "b#c")`
(everything after the first separator), but `parse_riot_id` takes `parts[1]`
of the full split, i.e. only the text between the first and second `'#'`,
so the result is `("a", "b")`. -/
theorem c3_counterexample :
    parse_riot_id "a#b#c" = (some "a", some "b") ∧
      (some "a", some "b") ≠ ((some "a", some "b#c") : Option String × Option String) := by
  constructor
  · rfl
  · decide

/-- C3 (amended): the Identity Parser strips the token; a token empty after
trim or without `'#'` yields `(none, none)`; a token containing `'#'` yields
`(some name, some tag)` where `name` is the trimmed text before the first
`'#'` and `tag` is the trimmed text between the first `'#'` and the second
`'#'` (to the end when there is only one separator) — not everything after
the first separator.  The listed examples hold with `parse("a#b#c") = ("a","b")`. -/
theorem c3_parse_riot_id_amended (line : String) :
    (pyStrip line = "" → parse_riot_id line = (none, none)) ∧
    ('#' ∉ (pyStrip line).data → parse_riot_id line = (none, none)) ∧
    ('#' ∈ (pyStrip line).data →
      parse_riot_id line =
        (some (pyStrip ⟨(pyStrip line).data.takeWhile (· ≠ '#')⟩),
         some (pyStrip ⟨(((pyStrip line).data.dropWhile (· ≠ '#')).tail).takeWhile (· ≠ '#')⟩))) ∧
    parse_riot_id "Faker#KR1" = (some "Faker", some "KR1") ∧
    parse_riot_id "noseparator" = (none, none) ∧
    parse_riot_id "#onlytag" = (some "", some "onlytag") := by
  refine ⟨?_, ?_, ?_, rfl, rfl, rfl⟩
  · intro h
    simp [parse_riot_id, h]
  · intro h
    by_cases he : pyStrip line = ""
    · simp [parse_riot_id, he]
    · simp [parse_riot_id, he, h]
  · intro h
    have hne : pyStrip line ≠ "" := fun he => absurd (he ▸ h) (by decide)
    simp only [parse_riot_id, if_neg hne, if_pos h]
    rw [pySplit_head, pySplit_second _ _ h]

/-- Witness for C3's amended theorem at the concrete token `"a#b#c"`. -/
theorem c3_witness :
    parse_riot_id "a#b#c" =
      (some (pyStrip ⟨(pyStrip "a#b#c").data.takeWhile (· ≠ '#')⟩),
       some (pyStrip ⟨(((pyStrip "a#b#c").data.dropWhile (· ≠ '#')).tail).takeWhile (· ≠ '#')⟩)) :=
  (c3_parse_riot_id_amended "a#b#c").2.2.1 (by decide)

/- ## Rank weights (`lol_rank_tracker.py` lines 15-33) -/

def TIER_WEIGHT : List (String × Nat) :=
  [("CHALLENGER", 9), ("GRANDMASTER", 8), ("MASTER", 7), ("DIAMOND", 6),
   ("EMERALD", 5), ("PLATINUM", 4), ("GOLD", 3), ("SILVER", 2),
   ("BRONZE", 1), ("IRON", 0)]

def RANK_WEIGHT : List (String × Nat) :=
  [("I", 4), ("II", 3), ("III", 2), ("IV", 1)]

/-- Python `d.get(k, dflt)` on the weight dictionaries. -/
def dictGet (d : List (String × Nat)) (k : String) (dflt : Nat) : Nat :=
  (d.lookup k).getD dflt

/- ## Rank Fetcher (`lol_rank_tracker.get_player_rank`, lines 47-113) -/

/-- One element of the list returned by the league-standings remote call. -/
structure LeagueEntry where
  queue_type : String
  tier : String
  rank : String
  league_points : Nat
  wins : Nat
  losses : Nat
deriving DecidableEq

/-- The observable outcome of the remote interaction inside
`get_player_rank`: either both remote calls return and yield the league
entry list, or some call raises an exception whose `str(e)` is `e_msg`
(both calls feed the same `except Exception` handler). -/
inductive FetchOutcome where
  | ok (league_entries : List LeagueEntry)
  | raises (e_msg : String)
deriving DecidableEq

/-- The result dict of `get_player_rank` (and input rows of `generate_html`).
The `success` branch populates every field; the other branches build dicts
without the `tier`/`rank`/`lp`/`wins`/`losses`/`win_rate`/`total_score` keys,
modelled here by zero/empty defaults — no code path of the repository reads
those keys on a non-`success` dict.  `error` models `d.get('error', ...)`. -/
structure PlayerDict where
  game_name : String
  tag_line : String
  tier : String
  rank : String
  lp : Nat
  wins : Nat
  losses : Nat
  win_rate : ℚ
  total_score : Nat
  status : String
  error : Option String
deriving DecidableEq

/-- `lol_rank_tracker.py` lines 47-113: look up the account and league
entries (the `outcome` parameter), pick the first `'RANKED_SOLO_5x5'` entry,
and classify.  An exception message containing `'404'`, or `'not found'`
after lowercasing, or `'Data not found'`, is classified `not_found`;
any other exception becomes `error` carrying the message. -/
def get_player_rank (game_name tag_line : String) (outcome : FetchOutcome) :
    PlayerDict :=
  match outcome with
  | .ok league_entries =>
    match league_entries.find? (fun entry => entry.queue_type == "RANKED_SOLO_5x5") with
    | some solo_queue =>
      let total_games := solo_queue.wins + solo_queue.losses
      let win_rate : ℚ :=
        if total_games > 0 then (solo_queue.wins : ℚ) / (total_games : ℚ) * 100 else 0
      let tier_score := dictGet TIER_WEIGHT solo_queue.tier 0 * 1000
      let rank_score := dictGet RANK_WEIGHT solo_queue.rank 0 * 100
      let lp_score := solo_queue.league_points
      let total_score := tier_score + rank_score + lp_score
      ⟨game_name, tag_line, solo_queue.tier, solo_queue.rank, solo_queue.league_points,
        solo_queue.wins, solo_queue.losses, win_rate, total_score, "success", none⟩
    | none => ⟨game_name, tag_line, "", "", 0, 0, 0, 0, 0, "unranked", none⟩
  | .raises e_msg =>
    if pyIn "404" e_msg || pyIn "not found" (pyLower e_msg) || pyIn "Data not found" e_msg then
      ⟨game_name, tag_line, "", "", 0, 0, 0, 0, 0, "not_found", none⟩
    else
      ⟨game_name, tag_line, "", "", 0, 0, 0, 0, 0, "error", some e_msg⟩

/-- A fetch whose standings reply holds exactly one solo-queue entry `e`
succeeds with the weighted score of `e`. -/
theorem get_player_rank_solo (n t : String) (e : LeagueEntry)
    (hq : e.queue_type = "RANKED_SOLO_5x5") :
    (get_player_rank n t (.ok [e])).status = "success" ∧
    (get_player_rank n t (.ok [e])).total_score =
      dictGet TIER_WEIGHT e.tier 0 * 1000 + dictGet RANK_WEIGHT e.rank 0 * 100 +
        e.league_points := by
  have hf : List.find? (fun entry => entry.queue_type == "RANKED_SOLO_5x5") [e] = some e := by
    simp [List.find?, hq]
  constructor <;> simp [get_player_rank, hf]

/- ## Claim C2 -/

/-- C2: for every name, tag and remote outcome, `get_player_rank` returns a
dict (it is a total function of the outcome — no exception reaches the
caller) whose `status` is one of `success`, `unranked`, `not_found`,
`error`; when the remote interaction raises, the result is `not_found`
exactly when the message contains `'404'`, or `'not found'`
case-insensitively, or `'Data not found'`, and otherwise `error` carrying
the message. -/
theorem c2_status_classification (game_name tag_line : String) (outcome : FetchOutcome) :
    ((get_player_rank game_name tag_line outcome).status = "success" ∨
     (get_player_rank game_name tag_line outcome).status = "unranked" ∨
     (get_player_rank game_name tag_line outcome).status = "not_found" ∨
     (get_player_rank game_name tag_line outcome).status = "error") ∧
    (∀ e_msg, outcome = FetchOutcome.raises e_msg →
      ((pyIn "404" e_msg || pyIn "not found" (pyLower e_msg) ||
          pyIn "Data not found" e_msg) = true →
        (get_player_rank game_name tag_line outcome).status = "not_found") ∧
      ((pyIn "404" e_msg || pyIn "not found" (pyLower e_msg) ||
          pyIn "Data not found" e_msg) = false →
        (get_player_rank game_name tag_line outcome).status = "error" ∧
        (get_player_rank game_name tag_line outcome).error = some e_msg)) := by
  constructor
  · cases outcome with
    | ok entries =>
      cases hf : entries.find? (fun entry => entry.queue_type == "RANKED_SOLO_5x5") with
      | some sq => left; simp [get_player_rank, hf]
      | none => right; left; simp [get_player_rank, hf]
    | raises m =>
      by_cases hc :
          (pyIn "404" m || pyIn "not found" (pyLower m) || pyIn "Data not found" m) = true
      · right; right; left; simp [get_player_rank, hc]
      · right; right; right
        simp only [Bool.not_eq_true] at hc
        simp [get_player_rank, hc]
  · rintro e_msg rfl
    constructor
    · intro hc
      simp [get_player_rank, hc]
    · intro hc
      constructor <;> simp [get_player_rank, hc]

/-- Witness for C2 at the concrete exception message `"404"`: classified
`not_found`. -/
theorem c2_witness :
    (get_player_rank "Faker" "KR1" (FetchOutcome.raises "404")).status = "not_found" :=
  (((c2_status_classification "Faker" "KR1" (FetchOutcome.raises "404")).2 "404" rfl).1)
    (by decide)

/- ## Claim C1 -/

/-- C1 counterexample: two success results with valid tiers and divisions
where A's division weight exceeds B's (GOLD I versus GOLD II) yet A's total
score is not greater: league points are not bounded by the formula, and
100 LP exactly cancels one division step
(3·1000 + 4·100 + 0 = 3·1000 + 3·100 + 100). -/
theorem c1_counterexample :
    (get_player_rank "A" "1"
      (.ok [⟨"RANKED_SOLO_5x5", "GOLD", "I", 0, 10, 10⟩])).status = "success" ∧
    (get_player_rank "B" "2"
      (.ok [⟨"RANKED_SOLO_5x5", "GOLD", "II", 100, 10, 10⟩])).status = "success" ∧
    dictGet RANK_WEIGHT "I" 0 > dictGet RANK_WEIGHT "II" 0 ∧
    ¬((get_player_rank "A" "1"
        (.ok [⟨"RANKED_SOLO_5x5", "GOLD", "I", 0, 10, 10⟩])).total_score >
      (get_player_rank "B" "2"
        (.ok [⟨"RANKED_SOLO_5x5", "GOLD", "II", 100, 10, 10⟩])).total_score) := by
  refine ⟨rfl, rfl, by decide, by decide⟩

/-- C1 (amended): the scoring order claim holds once both league-point
values are below 100 (the in-division LP range).  Then for success results
built by `get_player_rank` from valid tier and division names: a strictly
higher tier weight forces a strictly higher total score regardless of
division and LP, and within one tier a strictly higher division weight
forces a strictly higher total score regardless of LP.  (Unbounded LP
breaks both implications, see the counterexample.) -/
theorem c1_total_order_amended
    (nA tA nB tB : String) (eA eB : LeagueEntry)
    (hqA : eA.queue_type = "RANKED_SOLO_5x5") (hqB : eB.queue_type = "RANKED_SOLO_5x5")
    (htA : eA.tier ∈ ["CHALLENGER", "GRANDMASTER", "MASTER", "DIAMOND", "EMERALD",
        "PLATINUM", "GOLD", "SILVER", "BRONZE", "IRON"])
    (htB : eB.tier ∈ ["CHALLENGER", "GRANDMASTER", "MASTER", "DIAMOND", "EMERALD",
        "PLATINUM", "GOLD", "SILVER", "BRONZE", "IRON"])
    (hdA : eA.rank ∈ ["I", "II", "III", "IV"]) (hdB : eB.rank ∈ ["I", "II", "III", "IV"])
    (hlA : eA.league_points < 100) (hlB : eB.league_points < 100) :
    (get_player_rank nA tA (.ok [eA])).status = "success" ∧
    (get_player_rank nB tB (.ok [eB])).status = "success" ∧
    (dictGet TIER_WEIGHT eA.tier 0 > dictGet TIER_WEIGHT eB.tier 0 →
      (get_player_rank nA tA (.ok [eA])).total_score >
        (get_player_rank nB tB (.ok [eB])).total_score) ∧
    (eA.tier = eB.tier →
      dictGet RANK_WEIGHT eA.rank 0 > dictGet RANK_WEIGHT eB.rank 0 →
      (get_player_rank nA tA (.ok [eA])).total_score >
        (get_player_rank nB tB (.ok [eB])).total_score) := by
  obtain ⟨hsA, htsA⟩ := get_player_rank_solo nA tA eA hqA
  obtain ⟨hsB, htsB⟩ := get_player_rank_solo nB tB eB hqB
  have hdwA : 1 ≤ dictGet RANK_WEIGHT eA.rank 0 ∧ dictGet RANK_WEIGHT eA.rank 0 ≤ 4 := by
    simp only [List.mem_cons, List.not_mem_nil, or_false] at hdA
    rcases hdA with h | h | h | h <;> rw [h] <;> exact ⟨by decide, by decide⟩
  have hdwB : 1 ≤ dictGet RANK_WEIGHT eB.rank 0 ∧ dictGet RANK_WEIGHT eB.rank 0 ≤ 4 := by
    simp only [List.mem_cons, List.not_mem_nil, or_false] at hdB
    rcases hdB with h | h | h | h <;> rw [h] <;> exact ⟨by decide, by decide⟩
  refine ⟨hsA, hsB, ?_, ?_⟩
  · intro hw
    rw [htsA, htsB]
    omega
  · intro hteq hw
    rw [htsA, htsB, hteq]
    omega

/-- Witness for C1's amended theorem: CHALLENGER I 50 LP outranks
GOLD II 99 LP. -/
theorem c1_witness :
    (get_player_rank "A" "1"
      (.ok [⟨"RANKED_SOLO_5x5", "CHALLENGER", "I", 50, 10, 2⟩])).total_score >
    (get_player_rank "B" "2"
      (.ok [⟨"RANKED_SOLO_5x5", "GOLD", "II", 99, 10, 2⟩])).total_score :=
  (c1_total_order_amended "A" "1" "B" "2"
      ⟨"RANKED_SOLO_5x5", "CHALLENGER", "I", 50, 10, 2⟩
      ⟨"RANKED_SOLO_5x5", "GOLD", "II", 99, 10, 2⟩
      rfl rfl (by decide) (by decide) (by decide) (by decide)
      (by decide) (by decide)).2.2.1 (by decide)

/- ## Report Renderer (`lol_rank_tracker.generate_html`, lines 129-326) -/

/-- Python `f"{x:.1f}"` (round half to even at the first decimal), computed
on the exact rational via integer floor division.  The sign handling is for
completeness; the program only formats nonnegative win rates. -/
def formatFix1 (q : ℚ) : String :=
  let n10 := q.num * 10
  let d : Int := (q.den : Int)
  let fl := Int.fdiv n10 d
  let r := Int.fmod n10 d
  let n := if 2 * r > d then fl + 1 else if 2 * r < d then fl
    else if fl % 2 = 0 then fl else fl + 1
  let sign := if n < 0 then "-" else ""
  let m := n.natAbs
  sign ++ toString (m / 10) ++ "." ++ toString (m % 10)

/-- The constant document head of `generate_html` (template lines 140-245,
up to the first interpolated count).  Braces and apostrophes of the CSS are
written as `\x7b`, `\x7d`, `\x27`. -/
def htmlHeader : String :=
  "<!DOCTYPE html>\n<html lang=\"zh-CN\">\n<head>\n    <meta charset=\"UTF-8\">\n    <meta name=\"viewport\" content=\"width=device-width, initial-scale=1.0\">\n    <title>LOL排位排行榜</title>\n    <style>\n        * \x7b\n            margin: 0;\n            padding: 0;\n            box-sizing: border-box;\n        \x7d\n        body \x7b\n            font-family: \x27Microsoft YaHei\x27, Arial, sans-serif;\n            background: linear-gradient(135deg, #667eea 0%, #764ba2 100%);\n            padding: 20px;\n            min-height: 100vh;\n        \x7d\n        .container \x7b\n            max-width: 1200px;\n            margin: 0 auto;\n        \x7d\n        h1 \x7b\n            text-align: center;\n            color: white;\n            margin-bottom: 30px;\n            font-size: 2.5em;\n            text-shadow: 2px 2px 4px rgba(0,0,0,0.3);\n        \x7d\n        .stats \x7b\n            background: white;\n            border-radius: 10px;\n            padding: 15px;\n            margin-bottom: 20px;\n            box-shadow: 0 4px 6px rgba(0,0,0,0.1);\n            text-align: center;\n        \x7d\n        table \x7b\n            width: 100%;\n            background: white;\n            border-radius: 10px;\n            overflow: hidden;\n            box-shadow: 0 4px 6px rgba(0,0,0,0.1);\n            margin-bottom: 20px;\n        \x7d\n        th \x7b\n            background: linear-gradient(135deg, #667eea 0%, #764ba2 100%);\n            color: white;\n            padding: 15px;\n            text-align: left;\n            font-weight: bold;\n        \x7d\n        td \x7b\n            padding: 12px 15px;\n            border-bottom: 1px solid #f0f0f0;\n        \x7d\n        tr:hover \x7b\n            background-color: #f8f9fa;\n        \x7d\n        .rank-badge \x7b\n            display: inline-block;\n            padding: 5px 10px;\n            border-radius: 5px;\n            font-weight: bold;\n            color: white;\n        \x7d\n        .CHALLENGER \x7b background: #f4c430; \x7d\n        .GRANDMASTER \x7b background: #dc143c; \x7d\n        .MASTER \x7b background: #9b59b6; \x7d\n        .DIAMOND \x7b background: #3498db; \x7d\n        .EMERALD \x7b background: #2ecc71; \x7d\n        .PLATINUM \x7b background: #1abc9c; \x7d\n        .GOLD \x7b background: #f39c12; \x7d\n        .SILVER \x7b background: #95a5a6; \x7d\n        .BRONZE \x7b background: #cd7f32; \x7d\n        .IRON \x7b background: #636363; \x7d\n        .win-rate \x7b\n            font-weight: bold;\n        \x7d\n        .high \x7b color: #27ae60; \x7d\n        .medium \x7b color: #f39c12; \x7d\n        .low \x7b color: #e74c3c; \x7d\n        .section-title \x7b\n            color: white;\n            font-size: 1.5em;\n            margin: 20px 0 10px 0;\n        \x7d\n        .error-section \x7b\n            background: white;\n            border-radius: 10px;\n            padding: 15px;\n            margin-top: 20px;\n        \x7d\n        .error-item \x7b\n            padding: 8px;\n            border-bottom: 1px solid #f0f0f0;\n        \x7d\n    </style>\n</head>\n<body>\n    <div class=\"container\">\n        <h1>🏆 LOL 排位排行榜 🏆</h1>\n\n        <div class=\"stats\">\n            <strong>统计信息：</strong>\n            已排位: "

/-- Ranked-table heading emitted when there is at least one success row
(template lines 250-265). -/
def rankedTableHead : String :=
  "\n        <h2 class=\"section-title\">📊 排位玩家</h2>\n        <table>\n            <thead>\n                <tr>\n                    <th>排名</th>\n                    <th>召唤师名称</th>\n                    <th>段位</th>\n                    <th>胜场</th>\n                    <th>负场</th>\n                    <th>总场次</th>\n                    <th>胜率</th>\n                </tr>\n            </thead>\n            <tbody>\n"

/-- Ranked-table closing markup (lines 288-291). -/
def rankedTableFoot : String :=
  "\n            </tbody>\n        </table>\n"

/-- One ranked-table row (the f-string of lines 267-286): `win_rate_class`
is `high` at win rate ≥ 55, `medium` at ≥ 50, else `low`. -/
def playerRow (idx : Nat) (player : PlayerDict) : String :=
  let win_rate_class :=
    if player.win_rate ≥ 55 then "high" else if player.win_rate ≥ 50 then "medium" else "low"
  let total_games := player.wins + player.losses
  "\n                <tr>\n                    <td><strong>#" ++ toString idx ++
    "</strong></td>\n                    <td>" ++ player.game_name ++ "#" ++ player.tag_line ++
    "</td>\n                    <td>\n                        <span class=\"rank-badge " ++
    player.tier ++ "\">\n                            " ++ player.tier ++ " " ++ player.rank ++
    "\n                        </span>\n                        <span style=\"color: #666;\"> (" ++
    toString player.lp ++
    " LP)</span>\n                    </td>\n                    <td style=\"color: #27ae60; font-weight: bold;\">" ++
    toString player.wins ++
    "</td>\n                    <td style=\"color: #e74c3c; font-weight: bold;\">" ++
    toString player.losses ++ "</td>\n                    <td>" ++ toString total_games ++
    "</td>\n                    <td class=\"win-rate " ++ win_rate_class ++ "\">" ++
    (formatFix1 player.win_rate ++ "%</td>\n                </tr>\n")

/-- The `for idx, player in enumerate(ranked_players, 1)` loop of line 267:
concatenate one row per player, numbering from `idx`. -/
def rankedRows : Nat → List PlayerDict → String
  | _, [] => ""
  | idx, p :: rest => playerRow idx p ++ rankedRows (idx + 1) rest

/-- The ranked-table portion of the document: filter the `success` rows,
sort by `total_score` descending (line 138, Python's stable sort), and emit
the table only when the list is nonempty (line 249). -/
def rankedTableSection (players_data : List PlayerDict) : String :=
  let ranked_players :=
    (players_data.filter (fun p => p.status == "success")).mergeSort
      (fun a b => b.total_score ≤ a.total_score)
  if ranked_players.isEmpty then ""
  else rankedTableHead ++ rankedRows 1 ranked_players ++ rankedTableFoot

/-- Unranked-section heading (lines 294-297). -/
def unrankedHead : String :=
  "\n        <h2 class=\"section-title\">❓ 未排位玩家</h2>\n        <div class=\"error-section\">\n"

/-- One unranked item (lines 299-303). -/
def unrankedItem (player : PlayerDict) : String :=
  "\n            <div class=\"error-item\">\n                " ++ player.game_name ++ "#" ++
    player.tag_line ++ " - 未进行排位赛\n            </div>\n"

/-- Error-section heading (lines 307-310). -/
def errorHead : String :=
  "\n        <h2 class=\"section-title\">⚠️ 查询失败</h2>\n        <div class=\"error-section\">\n"

/-- One failed-lookup item (lines 311-317): `player.get('error', '未找到该玩家')`. -/
def errorItem (player : PlayerDict) : String :=
  let error_msg := player.error.getD "未找到该玩家"
  "\n            <div class=\"error-item\">\n                " ++ player.game_name ++ "#" ++
    player.tag_line ++ " - " ++ error_msg ++ "\n            </div>\n"

/-- Document foot (lines 320-324). -/
def htmlFoot : String :=
  "\n    </div>\n</body>\n</html>\n"

/-- `generate_html` (lines 129-326): partition by status, render the stats
line with the three counts, then the ranked table (sorted inside
`rankedTableSection`, exactly line 138), the unranked list and the failure
list, each section emitted only when its subset is nonempty. -/
def generate_html (players_data : List PlayerDict) : String :=
  let ranked_players := players_data.filter (fun p => p.status == "success")
  let unranked_players := players_data.filter (fun p => p.status == "unranked")
  let error_players :=
    players_data.filter (fun p => p.status == "not_found" || p.status == "error")
  let html := htmlHeader ++ toString ranked_players.length ++ " | 未排位: " ++
    toString unranked_players.length ++ " | 查询失败: " ++ toString error_players.length ++
    "\n        </div>\n"
  let html := html ++ rankedTableSection players_data
  let html := html ++
    (if unranked_players.isEmpty then ""
     else unrankedHead ++ String.join (unranked_players.map unrankedItem) ++ "</div>")
  let html := html ++
    (if error_players.isEmpty then ""
     else errorHead ++ String.join (error_players.map errorItem) ++ "</div>")
  html ++ htmlFoot

/- ## Substring infrastructure for the renderer claims -/

theorem containsSubL_append_right (n h1 h2 : List Char)
    (h : containsSubL n h2 = true) : containsSubL n (h1 ++ h2) = true := by
  induction h1 with
  | nil => simpa using h
  | cons c t ih => simp [containsSubL, ih]

theorem pyIn_append_right (sub s1 s2 : String) (h : pyIn sub s2 = true) :
    pyIn sub (s1 ++ s2) = true := by
  unfold pyIn at h ⊢
  rw [String.data_append]
  exact containsSubL_append_right _ _ _ h

/- ## Claim C4 -/

/-- C4 counterexample: a success entry with zero wins and zero losses is
rendered with the numeric win rate `0.0%` — the win-rate cell of its ranked
row contains `"0.0%"`, a digit-bearing percentage, not a non-numeric
placeholder.  (The `N/A` placeholder exists only in the interactive embed
path of `bot.py`, not in the report renderer `generate_html`.) -/
theorem c4_counterexample :
    (get_player_rank "P" "T"
      (.ok [⟨"RANKED_SOLO_5x5", "IRON", "IV", 0, 0, 0⟩])).status = "success" ∧
    (get_player_rank "P" "T"
      (.ok [⟨"RANKED_SOLO_5x5", "IRON", "IV", 0, 0, 0⟩])).wins = 0 ∧
    (get_player_rank "P" "T"
      (.ok [⟨"RANKED_SOLO_5x5", "IRON", "IV", 0, 0, 0⟩])).losses = 0 ∧
    formatFix1 (get_player_rank "P" "T"
      (.ok [⟨"RANKED_SOLO_5x5", "IRON", "IV", 0, 0, 0⟩])).win_rate = "0.0" ∧
    pyIn "0.0%" (playerRow 1 (get_player_rank "P" "T"
      (.ok [⟨"RANKED_SOLO_5x5", "IRON", "IV", 0, 0, 0⟩]))) = true ∧
    ("0.0%".data.any Char.isDigit) = true := by
  refine ⟨rfl, rfl, rfl, by decide, by decide, by decide⟩

/-- C4 (amended): for every fetch whose solo-queue entry has `wins = 0` and
`losses = 0`, the zero-total-games guard of `get_player_rank` sets
`win_rate` to `0` without dividing, and the ranked-table row for the entry
carries the numeric win-rate cell `0.0%` (not a non-numeric placeholder);
rendering is a total function, so no division-by-zero failure occurs. -/
theorem c4_zero_games_amended (n t tier rank : String) (lp idx : Nat) :
    (get_player_rank n t (.ok [⟨"RANKED_SOLO_5x5", tier, rank, lp, 0, 0⟩])).status =
      "success" ∧
    (get_player_rank n t (.ok [⟨"RANKED_SOLO_5x5", tier, rank, lp, 0, 0⟩])).win_rate = 0 ∧
    pyIn "0.0%"
      (playerRow idx (get_player_rank n t (.ok [⟨"RANKED_SOLO_5x5", tier, rank, lp, 0, 0⟩]))) =
      true := by
  refine ⟨(get_player_rank_solo n t _ rfl).1, rfl, ?_⟩
  have h : formatFix1
      (get_player_rank n t (.ok [⟨"RANKED_SOLO_5x5", tier, rank, lp, 0, 0⟩])).win_rate =
      "0.0" := by
    have hw : (get_player_rank n t
        (.ok [⟨"RANKED_SOLO_5x5", tier, rank, lp, 0, 0⟩])).win_rate = 0 := rfl
    rw [hw]
    decide
  simp only [playerRow]
  rw [h]
  exact pyIn_append_right _ _ _ (by decide)

/- ## Claim C10 -/

/-- C10: the ranked table depends on the success rows only through the
descending `total_score` order `generate_html` itself establishes: when the
success entries of two inputs are permutations of one another and their
total scores are pairwise distinct, the emitted ranked-table sections are
identical — the caller need not pre-sort. -/
theorem c10_table_perm_invariant (l1 l2 : List PlayerDict)
    (hperm : (l1.filter (fun p => p.status == "success")).Perm
        (l2.filter (fun p => p.status == "success")))
    (hdist : (l1.filter (fun p => p.status == "success")).Pairwise
        (fun a b => a.total_score ≠ b.total_score)) :
    rankedTableSection l1 = rankedTableSection l2 := by
  have htrans : ∀ a b c : PlayerDict,
      (decide (b.total_score ≤ a.total_score)) = true →
      (decide (c.total_score ≤ b.total_score)) = true →
      (decide (c.total_score ≤ a.total_score)) = true := by
    intro a b c hab hbc
    simp only [decide_eq_true_eq] at *
    exact hbc.trans hab
  have htotal : ∀ a b : PlayerDict,
      ((decide (b.total_score ≤ a.total_score)) ||
       (decide (a.total_score ≤ b.total_score))) = true := by
    intro a b
    rcases Nat.le_total a.total_score b.total_score with h | h <;> simp [h]
  have key : (l1.filter (fun p => p.status == "success")).mergeSort
        (fun a b => b.total_score ≤ a.total_score) =
      (l2.filter (fun p => p.status == "success")).mergeSort
        (fun a b => b.total_score ≤ a.total_score) := by
    haveI : IsAntisymm PlayerDict (fun a b => b.total_score < a.total_score) :=
      ⟨fun a b h1 h2 => absurd (Nat.lt_trans h1 h2) (Nat.lt_irrefl _)⟩
    have hp : ((l1.filter (fun p => p.status == "success")).mergeSort
          (fun a b => b.total_score ≤ a.total_score)).Perm
        ((l2.filter (fun p => p.status == "success")).mergeSort
          (fun a b => b.total_score ≤ a.total_score)) :=
      (List.mergeSort_perm _ _).trans (hperm.trans (List.mergeSort_perm _ _).symm)
    have hsym : ∀ {x y : PlayerDict},
        x.total_score ≠ y.total_score → y.total_score ≠ x.total_score :=
      fun h => h.symm
    have hd1 : ((l1.filter (fun p => p.status == "success")).mergeSort
          (fun a b => b.total_score ≤ a.total_score)).Pairwise
        (fun a b => a.total_score ≠ b.total_score) :=
      ((List.mergeSort_perm _ _).pairwise_iff hsym).mpr hdist
    have hd2 : ((l2.filter (fun p => p.status == "success")).mergeSort
          (fun a b => b.total_score ≤ a.total_score)).Pairwise
        (fun a b => a.total_score ≠ b.total_score) :=
      (hp.pairwise_iff hsym).mp hd1
    have hs1 := List.sorted_mergeSort htrans htotal
      (l1.filter (fun p => p.status == "success"))
    have hs2 := List.sorted_mergeSort htrans htotal
      (l2.filter (fun p => p.status == "success"))
    have hs1' : ((l1.filter (fun p => p.status == "success")).mergeSort
          (fun a b => b.total_score ≤ a.total_score)).Pairwise
        (fun a b => b.total_score ≤ a.total_score) :=
      hs1.imp (fun h => by simpa using h)
    have hs2' : ((l2.filter (fun p => p.status == "success")).mergeSort
          (fun a b => b.total_score ≤ a.total_score)).Pairwise
        (fun a b => b.total_score ≤ a.total_score) :=
      hs2.imp (fun h => by simpa using h)
    have hstrict1 : List.Sorted (fun a b : PlayerDict => b.total_score < a.total_score)
        ((l1.filter (fun p => p.status == "success")).mergeSort
          (fun a b => b.total_score ≤ a.total_score)) :=
      (hs1'.and hd1).imp (fun h => Nat.lt_of_le_of_ne h.1 (Ne.symm h.2))
    have hstrict2 : List.Sorted (fun a b : PlayerDict => b.total_score < a.total_score)
        ((l2.filter (fun p => p.status == "success")).mergeSort
          (fun a b => b.total_score ≤ a.total_score)) :=
      (hs2'.and hd2).imp (fun h => Nat.lt_of_le_of_ne h.1 (Ne.symm h.2))
    exact List.eq_of_perm_of_sorted hp hstrict1 hstrict2
  simp only [rankedTableSection]
  rw [key]

/-- Concrete players for the C10 witness: distinct total scores, same rows
in either input order. -/
def witnessPlayerA : PlayerDict :=
  ⟨"A", "1", "GOLD", "I", 10, 5, 5, 0, 3410, "success", none⟩

def witnessPlayerB : PlayerDict :=
  ⟨"B", "2", "SILVER", "II", 0, 1, 1, 0, 2300, "success", none⟩

/-- Witness for C10: swapping the two success entries leaves the ranked
table unchanged. -/
theorem c10_witness :
    rankedTableSection [witnessPlayerA, witnessPlayerB] =
      rankedTableSection [witnessPlayerB, witnessPlayerA] :=
  c10_table_perm_invariant [witnessPlayerA, witnessPlayerB]
    [witnessPlayerB, witnessPlayerA] (by decide) (by decide)

/- ## Roster Store (`bot.py` `load_id_list`, lines 36-53) -/

/-- The line normalisation of `load_id_list` line 50:
`[ln.strip() for ln in lines if ln.strip() and '#' in ln and not ln.strip().startswith('#')]`
(note: the separator test runs on the raw line, the other two on the
stripped line). -/
def load_id_list_parse (lines : List String) : List String :=
  (lines.filter (fun ln =>
    (pyStrip ln != "") && ('#' ∈ ln.data) && !(pyStartsWith (pyStrip ln) "#"))).map pyStrip

/-- The keep-rule as the spec words it (for the refinement claim C7): a
line is kept when, after trimming, it is non-empty, contains the separator
and does not start with the comment marker. -/
def roster_keep_spec (s : String) : Bool :=
  (s != "") && ('#' ∈ s.data) && !(pyStartsWith s "#")

/-- The module-level cache `_id_list` / `_id_list_mtime` of `bot.py`. -/
structure RosterCache where
  _id_list : List String
  _id_list_mtime : Option Nat
deriving DecidableEq

/-- The file system as one call to `load_id_list` observes it: the result
of `aiofiles.os.stat` (`none` when it raises, `some mtime` otherwise) and
the lines `readlines` would deliver. -/
structure FsView where
  statResult : Option Nat
  fileLines : List String
deriving DecidableEq

/-- `bot.py` lines 36-53: on stat failure reset the cache to `([], none)`
and return; when the stored mtime equals the fresh one return unchanged
without reading; otherwise read, parse and store the lines with the fresh
mtime.  The boolean reports whether the file body was read. -/
def load_id_list (st : RosterCache) (fs : FsView) : RosterCache × Bool :=
  match fs.statResult with
  | none => (⟨[], none⟩, false)
  | some mtime =>
    if st._id_list_mtime == some mtime then (st, false)
    else (⟨load_id_list_parse fs.fileLines, some mtime⟩, true)

/- ## Lemmas about `pyStrip` -/

theorem head_dropWhile_false (p : Char → Bool) (l : List Char) (c : Char) (t : List Char)
    (h : l.dropWhile p = c :: t) : p c = false := by
  induction l with
  | nil => simp at h
  | cons a as ih =>
    rw [List.dropWhile_cons] at h
    by_cases ha : p a = true
    · rw [if_pos ha] at h
      exact ih h
    · rw [if_neg ha] at h
      injection h with h1 _
      subst h1
      simpa using ha

theorem dropWhile_pyIsSpace_idem (x : List Char) :
    (x.dropWhile pyIsSpace).dropWhile pyIsSpace = x.dropWhile pyIsSpace := by
  cases h : x.dropWhile pyIsSpace with
  | nil => rfl
  | cons c t =>
    have hc := head_dropWhile_false pyIsSpace x c t h
    rw [List.dropWhile_cons, if_neg (by simp [hc])]

theorem pyStripL_prefix (l : List Char) :
    pyStripL l <+: l.dropWhile pyIsSpace := by
  have h1 : ((l.dropWhile pyIsSpace).reverse).dropWhile pyIsSpace <:+
      (l.dropWhile pyIsSpace).reverse := List.dropWhile_suffix _
  have h2 := List.reverse_prefix.mpr h1
  rwa [List.reverse_reverse] at h2

theorem pyStripL_head_false (l : List Char) (c : Char) (t : List Char)
    (h : pyStripL l = c :: t) : pyIsSpace c = false := by
  obtain ⟨r, hr⟩ := pyStripL_prefix l
  rw [h] at hr
  exact head_dropWhile_false pyIsSpace l c (t ++ r) hr.symm

theorem pyStripL_idem (l : List Char) : pyStripL (pyStripL l) = pyStripL l := by
  have h1 : (pyStripL l).dropWhile pyIsSpace = pyStripL l := by
    cases h : pyStripL l with
    | nil => rfl
    | cons c t =>
      have hc := pyStripL_head_false l c t h
      rw [List.dropWhile_cons, if_neg (by simp [hc])]
  have h2 : (pyStripL l).reverse = ((l.dropWhile pyIsSpace).reverse).dropWhile pyIsSpace := by
    unfold pyStripL
    rw [List.reverse_reverse]
  show (((pyStripL l).dropWhile pyIsSpace).reverse.dropWhile pyIsSpace).reverse = pyStripL l
  rw [h1, h2, dropWhile_pyIsSpace_idem, ← h2, List.reverse_reverse]

theorem pyStrip_idem (s : String) : pyStrip (pyStrip s) = pyStrip s := by
  show (⟨pyStripL (pyStripL s.data)⟩ : String) = ⟨pyStripL s.data⟩
  rw [pyStripL_idem]

theorem mem_dropWhile_not_space {c : Char} (hc : pyIsSpace c = false) (l : List Char) :
    c ∈ l.dropWhile pyIsSpace ↔ c ∈ l := by
  induction l with
  | nil => simp
  | cons a t ih =>
    by_cases ha : pyIsSpace a = true
    · rw [List.dropWhile_cons, if_pos ha, ih]
      constructor
      · exact fun h => List.mem_cons_of_mem _ h
      · intro h
        rcases List.mem_cons.mp h with h | h
        · subst h
          rw [ha] at hc
          cases hc
        · exact h
    · rw [List.dropWhile_cons, if_neg ha]

theorem mem_pyStrip {c : Char} (hc : pyIsSpace c = false) (s : String) :
    c ∈ (pyStrip s).data ↔ c ∈ s.data := by
  show c ∈ pyStripL s.data ↔ c ∈ s.data
  unfold pyStripL
  rw [List.mem_reverse, mem_dropWhile_not_space hc, List.mem_reverse,
    mem_dropWhile_not_space hc]

theorem dropWhile_append_singleton_ne (c : Char) (hc : pyIsSpace c = false)
    (ys : List Char) : List.dropWhile pyIsSpace (ys ++ [c]) ≠ [] := by
  induction ys with
  | nil => simp [List.dropWhile_cons, hc]
  | cons a t ih =>
    rw [List.cons_append, List.dropWhile_cons]
    by_cases ha : pyIsSpace a = true
    · rw [if_pos ha]
      exact ih
    · rw [if_neg ha]
      simp

theorem pyStripL_cons_ne_nil (c : Char) (x : List Char) (hc : pyIsSpace c = false) :
    pyStripL (c :: x) ≠ [] := by
  unfold pyStripL
  rw [List.dropWhile_cons, if_neg (by simp [hc]), List.reverse_cons]
  intro h
  have h2 := List.reverse_eq_nil_iff.mp h
  exact dropWhile_append_singleton_ne c hc x.reverse h2

/- ## Claim C7 -/

/-- C7: the entries produced from a roster file's lines are exactly the
trimmed lines that are non-empty, contain the separator `'#'` and do not
start with the comment marker `'#'`.  (`load_id_list` tests the separator
on the raw line, but stripping only removes whitespace, so the two tests
agree.) -/
theorem c7_roster_filter (lines : List String) :
    load_id_list_parse lines = (lines.map pyStrip).filter roster_keep_spec := by
  rw [List.filter_map]
  unfold load_id_list_parse
  congr 1
  apply List.filter_congr
  intro ln _
  have hmem : (decide ('#' ∈ (pyStrip ln).data)) = (decide ('#' ∈ ln.data)) :=
    decide_eq_decide.mpr (mem_pyStrip (by decide) ln)
  simp only [Function.comp_apply, roster_keep_spec, hmem]

/- ## Claim C6 -/

/-- C6 counterexample: the line `"a#b#c"` passes the roster filter and is
cached verbatim, yet it contains two separator characters, violating the
claimed "exactly one separator" invariant.  (A line such as `"a#"` likewise
passes with an empty tag side.) -/
theorem c6_counterexample :
    "a#b#c" ∈ load_id_list_parse ["a#b#c"] ∧ "a#b#c".data.count '#' ≠ 1 := by
  constructor
  · decide
  · decide

/-- C6 (amended): every cached roster entry is stripped (trimming is
idempotent on it), non-empty, contains at least one separator — not
necessarily exactly one — and does not start with the comment marker, so
the name side before the first separator is non-empty after trim; the tag
side may be empty and further separators may occur. -/
theorem c6_roster_invariant_amended (lines : List String) (e : String)
    (he : e ∈ load_id_list_parse lines) :
    pyStrip e = e ∧ e ≠ "" ∧ '#' ∈ e.data ∧ pyStartsWith e "#" = false ∧
    pyStrip ⟨e.data.takeWhile (· ≠ '#')⟩ ≠ "" := by
  unfold load_id_list_parse at he
  obtain ⟨ln, hln, hmap⟩ := List.mem_map.mp he
  have hfil := List.mem_filter.mp hln
  have h2 := hfil.2
  simp only [Bool.and_eq_true] at h2
  obtain ⟨⟨hne', hsep'⟩, hcm'⟩ := h2
  subst hmap
  have hcm : pyStartsWith (pyStrip ln) "#" = false := by simpa using hcm'
  refine ⟨pyStrip_idem ln, ?_, ?_, hcm, ?_⟩
  · intro h
    rw [h] at hne'
    simp at hne'
  · exact (mem_pyStrip (by decide) ln).mpr (of_decide_eq_true hsep')
  · rcases hd : (pyStrip ln).data with _ | ⟨c, t⟩
    · exfalso
      have hempty : pyStrip ln = "" := by
        show (⟨pyStripL ln.data⟩ : String) = ""
        have hnil : pyStripL ln.data = [] := hd
        rw [hnil]
      rw [hempty] at hne'
      simp at hne'
    · have hcm2 : subAt ['#'] (pyStrip ln).data = false := hcm
      rw [hd] at hcm2
      have hcne : ¬('#' = c) := by
        simpa [subAt] using hcm2
      have hcs : pyIsSpace c = false := pyStripL_head_false ln.data c t hd
      have hcne2 : ¬(c = '#') := fun hx => hcne hx.symm
      have htw : (c :: t).takeWhile (· ≠ '#') = c :: t.takeWhile (· ≠ '#') := by
        simp [List.takeWhile_cons, hcne2]
      rw [htw]
      intro heq
      have hdata := congrArg String.data heq
      exact pyStripL_cons_ne_nil c (t.takeWhile (· ≠ '#')) hcs hdata

/-- Witness for C6's amended invariant at the concrete roster line
`"  Faker#KR1  "`. -/
theorem c6_witness :
    pyStrip "Faker#KR1" = "Faker#KR1" ∧ ("Faker#KR1" : String) ≠ "" ∧
    '#' ∈ ("Faker#KR1" : String).data ∧ pyStartsWith "Faker#KR1" "#" = false ∧
    pyStrip ⟨("Faker#KR1" : String).data.takeWhile (· ≠ '#')⟩ ≠ "" :=
  c6_roster_invariant_amended ["  Faker#KR1  "] "Faker#KR1" (by decide)

/- ## Claim C8 -/

/-- C8: `load_id_list` re-reads and re-parses the file exactly when the
fresh stat succeeds with a modification time different from the cached one;
hence a second call with an unchanged file view performs no read (at most
one read across the two calls) and leaves the state unchanged; and a failed
stat resets the cache to the empty list with no stored mtime, returning
normally (the model is a total function — no exception reaches the
caller). -/
theorem c8_cache_behaviour (st : RosterCache) (fs : FsView) :
    (∀ m, fs.statResult = some m →
      (((load_id_list st fs).2 = true) ↔ st._id_list_mtime ≠ some m)) ∧
    (∀ m, fs.statResult = some m →
      load_id_list (load_id_list st fs).1 fs = ((load_id_list st fs).1, false)) ∧
    (fs.statResult = none → load_id_list st fs = (⟨[], none⟩, false)) := by
  obtain ⟨sr, fl⟩ := fs
  refine ⟨?_, ?_, ?_⟩
  · rintro m rfl
    by_cases h : st._id_list_mtime = some m
    · simp [load_id_list, h]
    · simp [load_id_list, h]
  · rintro m rfl
    by_cases h : st._id_list_mtime = some m
    · simp [load_id_list, h]
    · simp [load_id_list, h]
  · rintro rfl
    simp [load_id_list]

/-- Witness for C8: starting from the empty cache, a second load with the
same file view reads nothing and keeps the state. -/
theorem c8_witness :
    load_id_list (load_id_list ⟨[], none⟩ ⟨some 5, ["Faker#KR1"]⟩).1
        ⟨some 5, ["Faker#KR1"]⟩ =
      ((load_id_list ⟨[], none⟩ ⟨some 5, ["Faker#KR1"]⟩).1, false) :=
  (c8_cache_behaviour ⟨[], none⟩ ⟨some 5, ["Faker#KR1"]⟩).2.1 5 rfl

/- ## Scheduler wait computation (`bot.py` `_next_run_seconds`, lines 141-148) -/

/-- `bot.py` lines 141-148, on naive datetimes modelled as seconds:
`kst_now = utcnow() + tz_offset_hours` hours;
`target_today = combine(kst_now.date(), time(hour, minute))` is the start
of the current local day plus the target offset; when `kst_now` is at or
past it, the target shifts one day; the result is the difference in
seconds. -/
def _next_run_seconds (now_utc : Nat) (hour minute tz_offset_hours : Nat) : Nat :=
  let kst_now := now_utc + tz_offset_hours * 3600
  let day_start := kst_now - kst_now % 86400
  let target_today := day_start + hour * 3600 + minute * 60
  let target_today := if kst_now ≥ target_today then target_today + 86400 else target_today
  target_today - kst_now

/- ## Claim C9 -/

/-- C9: with target 03:00 and offset +9 hours — one hour before the local
target (02:00 local) the wait is 3600 s; one hour past it (04:00 local) the
wait is 82800 s (23 h); in general the target shifts to tomorrow exactly
when the local time is at or past today's 03:00, and the wait equals target
minus now. -/
theorem c9_next_run_wait (now_utc : Nat) :
    (((now_utc + 9 * 3600) % 86400 = 2 * 3600) →
      _next_run_seconds now_utc 3 0 9 = 3600) ∧
    (((now_utc + 9 * 3600) % 86400 = 4 * 3600) →
      _next_run_seconds now_utc 3 0 9 = 82800) ∧
    (((now_utc + 9 * 3600) % 86400 ≥ 3 * 3600) →
      _next_run_seconds now_utc 3 0 9 =
        ((now_utc + 9 * 3600) - (now_utc + 9 * 3600) % 86400) + 3 * 3600 + 86400 -
          (now_utc + 9 * 3600)) ∧
    (((now_utc + 9 * 3600) % 86400 < 3 * 3600) →
      _next_run_seconds now_utc 3 0 9 =
        ((now_utc + 9 * 3600) - (now_utc + 9 * 3600) % 86400) + 3 * 3600 -
          (now_utc + 9 * 3600)) := by
  refine ⟨?_, ?_, ?_, ?_⟩ <;>
    · intro h
      simp only [_next_run_seconds]
      split <;> omega

/-- Witness for C9 at `now_utc = 0` (09:00 local, past the 03:00 target):
the wait runs to tomorrow's target. -/
theorem c9_witness :
    _next_run_seconds 0 3 0 9 =
      ((0 + 9 * 3600) - (0 + 9 * 3600) % 86400) + 3 * 3600 + 86400 - (0 + 9 * 3600) :=
  (c9_next_run_wait 0).2.2.1 (by decide)

/- ## Scheduler loop body (`bot.py` `daily_refresh_task`, lines 151-199) -/

/-- The effects one iteration of the `while True` refresh loop observes:
`bodyExc` is the exception, if any, raised by the unguarded run body —
`load_id_list`'s file open/read, the chunked fetch orchestration, the
sort, `generate_html`, or the output-file write (lines 158-184); and
`publishExc` is the exception, if any, raised inside the channel-publish
`try` block (lines 186-196). -/
structure IterationEffects where
  bodyExc : Option String
  publishExc : Option String
deriving DecidableEq

/-- How one iteration of the refresh loop ends. -/
inductive IterationEnd where
  | sleptThenNext (seconds : Nat)
  | escaped (msg : String)
deriving DecidableEq

/-- One iteration of the `while True` loop of `daily_refresh_task`: the run
body (lines 158-184) has no exception handler, so a body exception escapes
the loop; only the channel publish is wrapped in `try/except` (lines
186-196), so its failure is logged and swallowed; an iteration that reaches
its end sleeps `24 * 3600` seconds (line 199) before the next round. -/
def daily_refresh_iteration (eff : IterationEffects) : IterationEnd :=
  match eff.bodyExc with
  | some msg => .escaped msg
  | none => .sleptThenNext (24 * 3600)

/- ## Claim C5 -/

/-- C5 counterexample: an iteration whose run body raises (for example the
output-file write failing) does not reach the 24-hour sleep — the exception
escapes the `while True` loop, which the claim says cannot happen. -/
theorem c5_counterexample :
    daily_refresh_iteration ⟨some "disk full", none⟩ = .escaped "disk full" ∧
    daily_refresh_iteration ⟨some "disk full", none⟩ ≠ .sleptThenNext (24 * 3600) := by
  exact ⟨rfl, by decide⟩

/-- C5 (amended): only the channel-publish step is exception-guarded.  An
iteration whose run body completes sleeps the full 24 hours before the next
run even when publishing raised; but an exception anywhere in the unguarded
run body (roster read, fetch orchestration, render, file write) escapes the
scheduling loop instead of being caught at the run boundary. -/
theorem c5_refresh_loop_amended :
    (∀ pexc, daily_refresh_iteration ⟨none, pexc⟩ = .sleptThenNext (24 * 3600)) ∧
    (∀ msg pexc, daily_refresh_iteration ⟨some msg, pexc⟩ = .escaped msg) :=
  ⟨fun _ => rfl, fun _ _ => rfl⟩
